import Mathlib

/-!
# Verification of the py2mql5 terminal-session wrapper

Shallow embedding of `src/py2mql5/__init__.py` and
`src/py2mql5/account_properties.py`.

The wrapper talks to an opaque vendor binding (the `MetaTrader5` package).
We model the binding as a record of oracles (`Binding`): the boolean results
of its `initialize`/`login` calls, whether `shutdown` raises, and the tuples
and the account-info object it returns.  Process-wide mutable state
(`sys.path`, `sys.modules`, the relevant parts of the filesystem) is modelled
by an explicit `Env` record threaded through the operations; Python
exceptions are modelled with `Except`, and a raised exception carries the
environment as it stood at the raise (Python does not roll state back).

Python floats are only ever copied verbatim by this wrapper (no arithmetic,
no comparison), so the float carrier is a type parameter `F`.
-/

namespace Py2MQL5

/-- `OFFICIAL_MODULE_NAME = "MetaTrader5"` from the source. -/
def OFFICIAL_MODULE_NAME : String := "MetaTrader5"

/-- `MT5LastError` — a `@dataclass(frozen=True)` pair of error code and
description. -/
structure MT5LastError where
  error_code : Int
  error_description : String
deriving DecidableEq, Repr

/-- `TerminalVersion` — a `@dataclass(frozen=True)` triple of terminal
version string, build number and build date. -/
structure TerminalVersion where
  metatrader5_terminal_version : String
  build : Int
  date : String
deriving DecidableEq, Repr

/-- The Python exceptions this wrapper can raise.
`InitializeError` is raised either with a single message string or, after a
failed binding `initialize` call, with the last-error snapshot plus a hint
string (two positional arguments in the source).  `LoginError` carries the
last-error snapshot.  `ValueError` is what Python `Enum` construction raises
on an unknown value, and `FrozenInstanceError` is what a frozen dataclass
raises on attribute assignment. -/
inductive PyErr where
  | initializeErrorMsg (msg : String)
  | initializeErrorLast (lastError : MT5LastError) (hint : String)
  | loginError (lastError : MT5LastError)
  | valueError (msg : String)
  | frozenInstanceError (msg : String)
deriving DecidableEq, Repr

/-- `TradeMode` enum from `account_properties.py`: DEMO = 0, CONTEST = 1,
REAL = 2. -/
inductive TradeMode where
  | DEMO
  | CONTEST
  | REAL
deriving DecidableEq, Repr

/-- Python `TradeMode(v)`: enum lookup by value; an integer outside the
declared value set raises `ValueError`. -/
def TradeMode.ofInt (v : Int) : Except PyErr TradeMode :=
  if v = 0 then .ok .DEMO
  else if v = 1 then .ok .CONTEST
  else if v = 2 then .ok .REAL
  else .error (.valueError (toString v ++ " is not a valid TradeMode"))

/-- `MarginSoMode` enum: STOPOUT_MODE_PERCENT = 0, STOPOUT_MODE_MONEY = 1. -/
inductive MarginSoMode where
  | STOPOUT_MODE_PERCENT
  | STOPOUT_MODE_MONEY
deriving DecidableEq, Repr

/-- Python `MarginSoMode(v)`. -/
def MarginSoMode.ofInt (v : Int) : Except PyErr MarginSoMode :=
  if v = 0 then .ok .STOPOUT_MODE_PERCENT
  else if v = 1 then .ok .STOPOUT_MODE_MONEY
  else .error (.valueError (toString v ++ " is not a valid MarginSoMode"))

/-- `MarginMode` enum: RETAIL_NETTING = 0, EXCHANGE = 1, RETAIL_HEDGING = 2. -/
inductive MarginMode where
  | RETAIL_NETTING
  | EXCHANGE
  | RETAIL_HEDGING
deriving DecidableEq, Repr

/-- Python `MarginMode(v)`. -/
def MarginMode.ofInt (v : Int) : Except PyErr MarginMode :=
  if v = 0 then .ok .RETAIL_NETTING
  else if v = 1 then .ok .EXCHANGE
  else if v = 2 then .ok .RETAIL_HEDGING
  else .error (.valueError (toString v ++ " is not a valid MarginMode"))

/-- The named-scalar-field object the binding's `account_info()` call
returns, with the three enum-coded fields still raw integers.  `F` is the
carrier for Python-float fields. -/
structure OfficialAccountInfo (F : Type) where
  login : Int
  trade_mode : Int
  leverage : Int
  limit_orders : Int
  margin_so_mode : Int
  trade_allowed : Bool
  trade_expert : Bool
  margin_mode : Int
  currency_digits : Int
  fifo_close : Bool
  balance : F
  credit : F
  profit : F
  equity : F
  margin : F
  margin_free : F
  margin_level : F
  margin_so_call : F
  margin_so_so : F
  margin_initial : F
  margin_maintenance : F
  assets : F
  liabilities : F
  commission_blocked : F
  name : String
  server : String
  currency : String
  company : String
deriving DecidableEq, Repr

/-- The attribute state of a constructed `AccountInfo` object. -/
structure AccountInfo (F : Type) where
  login : Int
  trade_mode : TradeMode
  leverage : Int
  limit_orders : Int
  margin_so_mode : MarginSoMode
  trade_allowed : Bool
  trade_expert : Bool
  margin_mode : MarginMode
  currency_digits : Int
  fifo_close : Bool
  balance : F
  credit : F
  profit : F
  equity : F
  margin : F
  margin_free : F
  margin_level : F
  margin_so_call : F
  margin_so_so : F
  margin_initial : F
  margin_maintenance : F
  assets : F
  liabilities : F
  commission_blocked : F
  name : String
  server : String
  currency : String
  company : String
deriving DecidableEq, Repr

/-- `AccountInfo.__init__`: copies every field of the binding's result
object, in source order, converting `trade_mode`, `margin_so_mode` and
`margin_mode` through their enums; an enum `ValueError` propagates. -/
def AccountInfo.ofOfficial {F : Type} (o : OfficialAccountInfo F) :
    Except PyErr (AccountInfo F) :=
  match TradeMode.ofInt o.trade_mode with
  | .error e => .error e
  | .ok tm =>
  match MarginSoMode.ofInt o.margin_so_mode with
  | .error e => .error e
  | .ok som =>
  match MarginMode.ofInt o.margin_mode with
  | .error e => .error e
  | .ok mm =>
  .ok { login := o.login
        trade_mode := tm
        leverage := o.leverage
        limit_orders := o.limit_orders
        margin_so_mode := som
        trade_allowed := o.trade_allowed
        trade_expert := o.trade_expert
        margin_mode := mm
        currency_digits := o.currency_digits
        fifo_close := o.fifo_close
        balance := o.balance
        credit := o.credit
        profit := o.profit
        equity := o.equity
        margin := o.margin
        margin_free := o.margin_free
        margin_level := o.margin_level
        margin_so_call := o.margin_so_call
        margin_so_so := o.margin_so_so
        margin_initial := o.margin_initial
        margin_maintenance := o.margin_maintenance
        assets := o.assets
        liabilities := o.liabilities
        commission_blocked := o.commission_blocked
        name := o.name
        server := o.server
        currency := o.currency
        company := o.company }

/-- In the source, `MT5LastError` and `TerminalVersion` are declared
`@dataclass(frozen=True)` while `AccountInfo` is a plain class.  Python
attribute assignment raises `FrozenInstanceError` on a frozen dataclass
instance and succeeds (rebinding the attribute) on a plain class instance.
This flag records, straight from the class declaration, whether
`AccountInfo` is frozen. -/
def accountInfoFrozen : Bool := false

/-- Python `obj.login = v` on an `AccountInfo` instance: raises iff the
class is a frozen dataclass, otherwise rebinds the attribute. -/
def AccountInfo.setLogin {F : Type} (a : AccountInfo F) (v : Int) :
    Except PyErr (AccountInfo F) :=
  if accountInfoFrozen then
    .error (.frozenInstanceError "cannot assign to field login")
  else
    .ok { a with login := v }

/-- Python `obj.balance = v` on an `AccountInfo` instance. -/
def AccountInfo.setBalance {F : Type} (a : AccountInfo F) (v : F) :
    Except PyErr (AccountInfo F) :=
  if accountInfoFrozen then
    .error (.frozenInstanceError "cannot assign to field balance")
  else
    .ok { a with balance := v }

/-- Python `str.startswith(pre)`, embedded at the character-list level. -/
def pyStartswith (s pre : String) : Bool :=
  pre.data.isPrefixOf s.data

/-- `Path(p).parent` for the path strings this model uses: drop the last
`/`-separated component. -/
def parentOf (p : String) : String :=
  String.intercalate "/" (p.splitOn "/").dropLast

/-- One entry of the isolation directory, as seen by `iterdir()`. -/
structure DirEntry where
  name : String
  isDir : Bool
deriving DecidableEq, Repr

/-- The process-wide mutable state the wrapper touches, restricted to the
one terminal install the session is constructed against: the module lookup
path (`sys.path`), the module registry (`sys.modules`, keys only), the
relevant parts of the filesystem, and the result of
`importlib.util.find_spec(OFFICIAL_MODULE_NAME)` (outer `Option`: spec
found; inner: its `origin`). -/
structure Env where
  sysPath : List String
  sysModules : List String
  terminalExists : Bool
  writable : Bool
  parentFiles : List String
  baseDirExists : Bool
  baseEntries : List DirEntry
  officialSpec : Option (Option String)
deriving DecidableEq, Repr

/-- The vendor binding as an oracle: results of its calls during the
scenario under consideration.  `F` is the float carrier for the
account-info object. -/
structure Binding (F : Type) where
  initializeResult : Bool
  loginResult : Bool
  shutdownRaises : Bool
  versionResult : String × Int × String
  lastErrorResult : Int × String
  accountInfoResult : OfficialAccountInfo F
deriving DecidableEq, Repr

/-- Which binding operations a wrapper call invoked, in order. -/
inductive BCall where
  | initCall
  | loginCall
  | shutdownCall
  | versionCall
  | lastErrorCall
  | accountInfoCall
deriving DecidableEq, Repr

/-- The attributes a fully constructed `Client` carries (the imported
binding handle itself is the `Binding` oracle, passed separately). -/
structure Client where
  terminal_path : String
  timeout : Int
  portable : Bool
  account_number : Int
  server : String
  base_module_dir : String
  module_dir : String
  module_name : String
deriving DecidableEq, Repr

/-- `Client.last_error`: wraps the binding's 2-tuple positionally. -/
def Client.lastError {F : Type} (b : Binding F) : MT5LastError :=
  { error_code := b.lastErrorResult.1
    error_description := b.lastErrorResult.2 }

/-- `Client.version`: wraps the binding's 3-tuple positionally. -/
def Client.version {F : Type} (b : Binding F) : TerminalVersion :=
  { metatrader5_terminal_version := b.versionResult.1
    build := b.versionResult.2.1
    date := b.versionResult.2.2 }

/-- `Client.account_info`: fetches the binding's result object and builds
the typed snapshot. -/
def Client.accountInfo {F : Type} (b : Binding F) :
    Except PyErr (AccountInfo F) :=
  AccountInfo.ofOfficial b.accountInfoResult

/-- `Client.login`: forwards to the binding; on a `False` result raises
`LoginError(self.last_error())` (which performs a `last_error` call),
otherwise prints and returns `None`. -/
def Client.login {F : Type} (b : Binding F) (_account_number : Int)
    (_password : String) (_server : String) (_timeout : Int) :
    Except PyErr Unit × List BCall :=
  if b.loginResult then
    (.ok (), [.loginCall])
  else
    (.error (.loginError (Client.lastError b)), [.loginCall, .lastErrorCall])

/-- `sys.modules` after `__import__(name)`: Python caches imports, so the
registry gains the key only if absent. -/
def importModule (mods : List String) (name : String) : List String :=
  if name ∈ mods then mods else mods ++ [name]

/-- The `InitializeError` message of the write-permission check, with its
remediation guidance, concatenated as in the source. -/
def writePermissionMessage (p : String) : String :=
  "No write permission in " ++ p ++ ". " ++
    "Please copy MetaTrader to a directory with write permissions " ++
    "(avoid system directories like Program Files, C:, root, etc)"

/-- The contents of the isolation directory after
`base_module_dir.mkdir(exist_ok=True)`: its previous entries if it already
existed, empty if it was just created. -/
def scanEntries (env : Env) : List DirEntry :=
  if env.baseDirExists then env.baseEntries else []

/-- `existing_modules` scan: the entries of the isolation directory that
are directories whose name starts with `"MetaTrader5_"`. -/
def existingModules (env : Env) : List DirEntry :=
  (scanEntries env).filter
    (fun d => d.isDir && pyStartswith d.name (OFFICIAL_MODULE_NAME ++ "_"))

/-- The result attributes of `__copy_and_import_official_module__`. -/
structure ImportResult where
  base_module_dir : String
  module_dir : String
  module_name : String
deriving DecidableEq, Repr

/-- `Client.__copy_and_import_official_module__`, with the fresh
`uuid.uuid4().hex[:8]` of the probe file and the `str(uuid.uuid4())`
(dashes already replaced) of the module name passed in as `probeId` and
`moduleId`.  Steps, as in the source: write-permission probe (touch then
unlink a uniquely named file; failure raises `InitializeError` with
remediation guidance); `mkdir(exist_ok=True)` of the isolation directory;
scan for an existing duplicate by name prefix and reuse it, else locate the
official package (failure raises `InitializeError`) and copy it to a
freshly named directory (the cosmetic comment patching of the copied entry
file is below this filesystem abstraction); finally append the isolation
directory to `sys.path` and import the duplicate. -/
def Client.copyAndImportOfficialModule (env : Env) (terminal_path : String)
    (probeId moduleId : String) : Except PyErr ImportResult × Env :=
  if env.writable = false then
    (.error (.initializeErrorMsg (writePermissionMessage terminal_path)), env)
  else
    let probeFile := "py2mql5_test_" ++ probeId
    let parentFiles1 := (env.parentFiles ++ [probeFile]).erase probeFile
    let base := parentOf terminal_path ++ "/" ++ "py2mql5"
    let entries := scanEntries env
    match existingModules env with
    | e :: _ =>
        let env1 : Env := { env with
          parentFiles := parentFiles1
          baseDirExists := true
          baseEntries := entries
          sysPath := env.sysPath ++ [base]
          sysModules := importModule env.sysModules e.name }
        (.ok { base_module_dir := base
               module_dir := base ++ "/" ++ e.name
               module_name := e.name }, env1)
    | [] =>
        let moduleName := OFFICIAL_MODULE_NAME ++ "_" ++ moduleId
        match env.officialSpec with
        | some (some _origin) =>
            let env1 : Env := { env with
              parentFiles := parentFiles1
              baseDirExists := true
              baseEntries := entries ++ [{ name := moduleName, isDir := true }]
              sysPath := env.sysPath ++ [base]
              sysModules := importModule env.sysModules moduleName }
            (.ok { base_module_dir := base
                   module_dir := base ++ "/" ++ moduleName
                   module_name := moduleName }, env1)
        | _ =>
            (.error (.initializeErrorMsg
                ("Module " ++ OFFICIAL_MODULE_NAME ++ " not found")),
             { env with
               parentFiles := parentFiles1
               baseDirExists := true
               baseEntries := entries })

/-- `Client.__init__`: check the terminal path exists (else
`InitializeError`), run `__copy_and_import_official_module__`, set the
attributes (`portable = True`), then call the binding's `initialize`; a
`False` result raises `InitializeError(self.last_error(), hint)` — note the
side effects of the copy-and-import step are not rolled back.  The third
component records which binding calls were made. -/
def Client.init {F : Type} (env : Env) (b : Binding F)
    (terminal_path : String) (account_number : Int) (_password : String)
    (server : String) (timeout : Int) (probeId moduleId : String) :
    Except PyErr Client × Env × List BCall :=
  if env.terminalExists = false then
    (.error (.initializeErrorMsg
        ("Terminal path " ++ terminal_path ++ " does not exist")), env, [])
  else
    match Client.copyAndImportOfficialModule env terminal_path probeId moduleId with
    | (.error e, env1) => (.error e, env1, [])
    | (.ok ir, env1) =>
        let c : Client := { terminal_path := terminal_path
                            timeout := timeout
                            portable := true
                            account_number := account_number
                            server := server
                            base_module_dir := ir.base_module_dir
                            module_dir := ir.module_dir
                            module_name := ir.module_name }
        if b.initializeResult then
          (.ok c, env1, [.initCall])
        else
          (.error (.initializeErrorLast (Client.lastError b)
              "ensure you can login manually with portable mode: True"),
           env1, [.initCall, .lastErrorCall])

/-- `Client.__del__`: `shutdown` inside `try`/`except` (a raising shutdown
is caught and a line is logged — third component), then
`sys.path.remove(str(self.base_module_dir))` — which, like Python
`list.remove`, removes the first occurrence and raises `ValueError` when
the element is absent — then `sys.modules.pop(self.module_name, None)`
(never raises).  A raised `ValueError` aborts before the `pop`. -/
def Client.del {F : Type} (b : Binding F) (c : Client) (env : Env) :
    Except PyErr Unit × Env × List String :=
  let logs := if b.shutdownRaises then
      ["Error shutting down MetaTrader5: " ++ c.module_name ++ " in " ++
        c.module_dir]
    else []
  if c.base_module_dir ∈ env.sysPath then
    (.ok (),
     { env with
       sysPath := env.sysPath.erase c.base_module_dir
       sysModules := env.sysModules.erase c.module_name }, logs)
  else
    (.error (.valueError "list.remove(x): x not in list"), env, logs)

/-! ## Helper lemmas -/

theorem isPrefixOf_append_self (l t : List Char) : l.isPrefixOf (l ++ t) = true := by
  induction l with
  | nil => simp [List.isPrefixOf]
  | cons x xs ih => simp [List.isPrefixOf, ih]

theorem pyStartswith_append (pre rest : String) :
    pyStartswith (pre ++ rest) pre = true := by
  simp only [pyStartswith, String.data_append]
  exact isPrefixOf_append_self pre.data rest.data

theorem erase_append_singleton {a : String} {l : List String} (h : a ∉ l) :
    (l ++ [a]).erase a = l := by
  rw [List.erase_append_right _ h]
  simp

theorem importModule_mem (mods : List String) (name : String) :
    name ∈ importModule mods name := by
  unfold importModule
  by_cases h : name ∈ mods
  · simp [h]
  · simp [h]

/-- Characterization of `__copy_and_import_official_module__` when the
name-prefix scan finds an existing duplicate. -/
theorem copyAndImport_reuse (env : Env) (terminal_path probeId moduleId : String)
    (hw : env.writable = true) (e : DirEntry) (rest : List DirEntry)
    (hex : existingModules env = e :: rest) :
    Client.copyAndImportOfficialModule env terminal_path probeId moduleId =
      (.ok { base_module_dir := parentOf terminal_path ++ "/" ++ "py2mql5"
             module_dir := parentOf terminal_path ++ "/" ++ "py2mql5" ++ "/" ++ e.name
             module_name := e.name },
       { env with
         parentFiles := (env.parentFiles ++ ["py2mql5_test_" ++ probeId]).erase
           ("py2mql5_test_" ++ probeId)
         baseDirExists := true
         baseEntries := scanEntries env
         sysPath := env.sysPath ++ [parentOf terminal_path ++ "/" ++ "py2mql5"]
         sysModules := importModule env.sysModules e.name }) := by
  unfold Client.copyAndImportOfficialModule
  rw [hw]
  simp [hex]

/-- Characterization of `__copy_and_import_official_module__` when the scan
finds nothing and a fresh copy is made. -/
theorem copyAndImport_fresh (env : Env) (terminal_path probeId moduleId : String)
    (hw : env.writable = true) (hex : existingModules env = [])
    (orig : String) (hspec : env.officialSpec = some (some orig)) :
    Client.copyAndImportOfficialModule env terminal_path probeId moduleId =
      (.ok { base_module_dir := parentOf terminal_path ++ "/" ++ "py2mql5"
             module_dir := parentOf terminal_path ++ "/" ++ "py2mql5" ++ "/" ++
               (OFFICIAL_MODULE_NAME ++ "_" ++ moduleId)
             module_name := OFFICIAL_MODULE_NAME ++ "_" ++ moduleId },
       { env with
         parentFiles := (env.parentFiles ++ ["py2mql5_test_" ++ probeId]).erase
           ("py2mql5_test_" ++ probeId)
         baseDirExists := true
         baseEntries := scanEntries env ++
           [{ name := OFFICIAL_MODULE_NAME ++ "_" ++ moduleId, isDir := true }]
         sysPath := env.sysPath ++ [parentOf terminal_path ++ "/" ++ "py2mql5"]
         sysModules := importModule env.sysModules
           (OFFICIAL_MODULE_NAME ++ "_" ++ moduleId) }) := by
  unfold Client.copyAndImportOfficialModule
  rw [hw]
  simp [hex, hspec]

/-- When the isolation directory already exists, the scan sees its
entries. -/
theorem scanEntries_eq (env : Env) (h : env.baseDirExists = true) :
    scanEntries env = env.baseEntries := by
  simp [scanEntries, h]

/-- A freshly created duplicate's directory entry passes the scan
predicate. -/
theorem freshEntry_matches (moduleId : String) :
    (fun d : DirEntry => d.isDir && pyStartswith d.name (OFFICIAL_MODULE_NAME ++ "_"))
      { name := OFFICIAL_MODULE_NAME ++ "_" ++ moduleId, isDir := true } = true := by
  simp only [Bool.true_and]
  exact pyStartswith_append (OFFICIAL_MODULE_NAME ++ "_") moduleId

/-- Characterization of a successful `Client.__init__` that reuses an
existing duplicate. -/
theorem init_reuse_ok (F : Type) (env : Env) (b : Binding F) (tp : String)
    (n : Int) (pw s : String) (t : Int) (pid mid : String)
    (hterm : env.terminalExists = true) (hw : env.writable = true)
    (hinit : b.initializeResult = true) (e : DirEntry) (rest : List DirEntry)
    (hex : existingModules env = e :: rest) :
    Client.init env b tp n pw s t pid mid =
      (.ok { terminal_path := tp
             timeout := t
             portable := true
             account_number := n
             server := s
             base_module_dir := parentOf tp ++ "/" ++ "py2mql5"
             module_dir := parentOf tp ++ "/" ++ "py2mql5" ++ "/" ++ e.name
             module_name := e.name },
       { env with
         parentFiles := (env.parentFiles ++ ["py2mql5_test_" ++ pid]).erase
           ("py2mql5_test_" ++ pid)
         baseDirExists := true
         baseEntries := scanEntries env
         sysPath := env.sysPath ++ [parentOf tp ++ "/" ++ "py2mql5"]
         sysModules := importModule env.sysModules e.name },
       [.initCall]) := by
  unfold Client.init
  rw [copyAndImport_reuse env tp pid mid hw e rest hex, hterm]
  simp [hinit]

/-- Characterization of a failing-at-initialize `Client.__init__` that
reuses an existing duplicate. -/
theorem init_reuse_fail (F : Type) (env : Env) (b : Binding F) (tp : String)
    (n : Int) (pw s : String) (t : Int) (pid mid : String)
    (hterm : env.terminalExists = true) (hw : env.writable = true)
    (hinit : b.initializeResult = false) (e : DirEntry) (rest : List DirEntry)
    (hex : existingModules env = e :: rest) :
    Client.init env b tp n pw s t pid mid =
      (.error (.initializeErrorLast (Client.lastError b)
         "ensure you can login manually with portable mode: True"),
       { env with
         parentFiles := (env.parentFiles ++ ["py2mql5_test_" ++ pid]).erase
           ("py2mql5_test_" ++ pid)
         baseDirExists := true
         baseEntries := scanEntries env
         sysPath := env.sysPath ++ [parentOf tp ++ "/" ++ "py2mql5"]
         sysModules := importModule env.sysModules e.name },
       [.initCall, .lastErrorCall]) := by
  unfold Client.init
  rw [copyAndImport_reuse env tp pid mid hw e rest hex, hterm]
  simp [hinit]

/-- Characterization of a successful `Client.__init__` that creates a
fresh duplicate. -/
theorem init_fresh_ok (F : Type) (env : Env) (b : Binding F) (tp : String)
    (n : Int) (pw s : String) (t : Int) (pid mid : String)
    (hterm : env.terminalExists = true) (hw : env.writable = true)
    (hinit : b.initializeResult = true) (hex : existingModules env = [])
    (orig : String) (hspec : env.officialSpec = some (some orig)) :
    Client.init env b tp n pw s t pid mid =
      (.ok { terminal_path := tp
             timeout := t
             portable := true
             account_number := n
             server := s
             base_module_dir := parentOf tp ++ "/" ++ "py2mql5"
             module_dir := parentOf tp ++ "/" ++ "py2mql5" ++ "/" ++
               (OFFICIAL_MODULE_NAME ++ "_" ++ mid)
             module_name := OFFICIAL_MODULE_NAME ++ "_" ++ mid },
       { env with
         parentFiles := (env.parentFiles ++ ["py2mql5_test_" ++ pid]).erase
           ("py2mql5_test_" ++ pid)
         baseDirExists := true
         baseEntries := scanEntries env ++
           [{ name := OFFICIAL_MODULE_NAME ++ "_" ++ mid, isDir := true }]
         sysPath := env.sysPath ++ [parentOf tp ++ "/" ++ "py2mql5"]
         sysModules := importModule env.sysModules (OFFICIAL_MODULE_NAME ++ "_" ++ mid) },
       [.initCall]) := by
  unfold Client.init
  rw [copyAndImport_fresh env tp pid mid hw hex orig hspec, hterm]
  simp [hinit]

/-- Characterization of a failing-at-initialize `Client.__init__` that
creates a fresh duplicate. -/
theorem init_fresh_fail (F : Type) (env : Env) (b : Binding F) (tp : String)
    (n : Int) (pw s : String) (t : Int) (pid mid : String)
    (hterm : env.terminalExists = true) (hw : env.writable = true)
    (hinit : b.initializeResult = false) (hex : existingModules env = [])
    (orig : String) (hspec : env.officialSpec = some (some orig)) :
    Client.init env b tp n pw s t pid mid =
      (.error (.initializeErrorLast (Client.lastError b)
         "ensure you can login manually with portable mode: True"),
       { env with
         parentFiles := (env.parentFiles ++ ["py2mql5_test_" ++ pid]).erase
           ("py2mql5_test_" ++ pid)
         baseDirExists := true
         baseEntries := scanEntries env ++
           [{ name := OFFICIAL_MODULE_NAME ++ "_" ++ mid, isDir := true }]
         sysPath := env.sysPath ++ [parentOf tp ++ "/" ++ "py2mql5"]
         sysModules := importModule env.sysModules (OFFICIAL_MODULE_NAME ++ "_" ++ mid) },
       [.initCall, .lastErrorCall]) := by
  unfold Client.init
  rw [copyAndImport_fresh env tp pid mid hw hex orig hspec, hterm]
  simp [hinit]

/-! ## Concrete example values (used by witnesses and counterexamples) -/

/-- A concrete binding account-info result object (float carrier `Int`). -/
def officialEx : OfficialAccountInfo Int :=
  { login := 123456
    trade_mode := 2
    leverage := 100
    limit_orders := 200
    margin_so_mode := 0
    trade_allowed := true
    trade_expert := true
    margin_mode := 2
    currency_digits := 2
    fifo_close := false
    balance := 10000
    credit := 0
    profit := 5
    equity := 10005
    margin := 100
    margin_free := 9905
    margin_level := 10005
    margin_so_call := 50
    margin_so_so := 30
    margin_initial := 0
    margin_maintenance := 0
    assets := 0
    liabilities := 0
    commission_blocked := 0
    name := "Trader"
    server := "Demo-Server"
    currency := "USD"
    company := "Broker Ltd" }

/-- A concrete binding oracle. -/
def bindingEx : Binding Int :=
  { initializeResult := true
    loginResult := true
    shutdownRaises := false
    versionResult := ("5.0.45", 4500, "15 Jan 2024")
    lastErrorResult := (1, "Success")
    accountInfoResult := officialEx }

/-- The `AccountInfo` snapshot `bindingEx` yields. -/
def aiEx : AccountInfo Int :=
  { login := 123456
    trade_mode := .REAL
    leverage := 100
    limit_orders := 200
    margin_so_mode := .STOPOUT_MODE_PERCENT
    trade_allowed := true
    trade_expert := true
    margin_mode := .RETAIL_HEDGING
    currency_digits := 2
    fifo_close := false
    balance := 10000
    credit := 0
    profit := 5
    equity := 10005
    margin := 100
    margin_free := 9905
    margin_level := 10005
    margin_so_call := 50
    margin_so_so := 30
    margin_initial := 0
    margin_maintenance := 0
    assets := 0
    liabilities := 0
    commission_blocked := 0
    name := "Trader"
    server := "Demo-Server"
    currency := "USD"
    company := "Broker Ltd" }

/-- A concrete fully constructed client. -/
def clientEx : Client :=
  { terminal_path := "C:/mt5/terminal64.exe"
    timeout := 60000
    portable := true
    account_number := 123456
    server := "Demo-Server"
    base_module_dir := "C:/mt5/py2mql5"
    module_dir := "C:/mt5/py2mql5/MetaTrader5_abc"
    module_name := "MetaTrader5_abc" }

/-- A concrete environment as it stands right after `clientEx` was
constructed (isolation directory on the path once, duplicate imported). -/
def envEx : Env :=
  { sysPath := ["C:/mt5/py2mql5"]
    sysModules := ["MetaTrader5_abc"]
    terminalExists := true
    writable := true
    parentFiles := []
    baseDirExists := true
    baseEntries := [{ name := "MetaTrader5_abc", isDir := true }]
    officialSpec := some (some "site-packages/MetaTrader5/__init__.py") }

/-- A concrete environment for a terminal install nothing has touched yet:
no isolation directory, empty lookup path and registry. -/
def envFresh : Env :=
  { sysPath := []
    sysModules := []
    terminalExists := true
    writable := true
    parentFiles := []
    baseDirExists := false
    baseEntries := []
    officialSpec := some (some "site-packages/MetaTrader5/__init__.py") }

/-- `envFresh` with a non-existent terminal path. -/
def envNoTerm : Env :=
  { envFresh with terminalExists := false }

/-! ## Claims -/

/-- C7: After a successful construct, for every 3-tuple the binding's
version operation returns and every 2-tuple its last_error operation
returns, `version()` and `last_error()` return typed records assembled
strictly from the positional tuple elements with field order preserved. -/
theorem claim_C7 (F : Type) (b : Binding F) :
    Client.version b = { metatrader5_terminal_version := b.versionResult.1
                         build := b.versionResult.2.1
                         date := b.versionResult.2.2 } ∧
    Client.lastError b = { error_code := b.lastErrorResult.1
                           error_description := b.lastErrorResult.2 } :=
  ⟨rfl, rfl⟩

/-- C9: `login` forwards to the binding's login operation; if the binding
reports failure it raises `LoginError` carrying the current last-error
snapshot, and otherwise it returns no value. -/
theorem claim_C9 (F : Type) (b : Binding F) (account_number : Int)
    (password server : String) (timeout : Int) :
    (Client.login b account_number password server timeout).1 =
      (if b.loginResult then .ok ()
       else .error (.loginError { error_code := b.lastErrorResult.1
                                  error_description := b.lastErrorResult.2 })) ∧
    BCall.loginCall ∈ (Client.login b account_number password server timeout).2 := by
  cases hb : b.loginResult <;> simp [Client.login, Client.lastError, hb]

/-- C6: for every combination of the other arguments, constructing a
Session with a terminal path that does not reference an existing
filesystem path fails with `InitializeError` (and changes nothing). -/
theorem claim_C6 (F : Type) (env : Env) (b : Binding F) (terminal_path : String)
    (account_number : Int) (password server : String) (timeout : Int)
    (probeId moduleId : String) (h : env.terminalExists = false) :
    Client.init env b terminal_path account_number password server timeout
        probeId moduleId =
      (.error (.initializeErrorMsg
          ("Terminal path " ++ terminal_path ++ " does not exist")), env, []) := by
  simp [Client.init, h]

/-- C6 witness: a concrete construction attempt against a missing terminal
path, with concrete other arguments. -/
theorem claim_C6_witness :
    Client.init (F := Int) envNoTerm bindingEx "C:/mt5/terminal64.exe" 123456
        "pw" "Demo-Server" 60000 "deadbeef" "mid1" =
      (.error (.initializeErrorMsg
          ("Terminal path " ++ "C:/mt5/terminal64.exe" ++ " does not exist")),
       envNoTerm, []) :=
  claim_C6 Int envNoTerm bindingEx "C:/mt5/terminal64.exe" 123456 "pw"
    "Demo-Server" 60000 "deadbeef" "mid1" rfl

/-- C1 counterexample: disposing a concretely constructed session twice.
The first disposal succeeds, but the second raises `ValueError`, because
`sys.path.remove` is called on a list that no longer contains the
isolation directory entry.  This refutes the claim that a repeated
disposal of the same Session does not raise. -/
theorem claim_C1_counterexample :
    (Client.del bindingEx clientEx envEx).1 = .ok () ∧
    (Client.del bindingEx clientEx (Client.del bindingEx clientEx envEx).2.1).1 =
      .error (.valueError "list.remove(x): x not in list") :=
  ⟨rfl, rfl⟩

/-- C1 (amended): disposal catches any shutdown failure (for every binding
oracle, including a raising one, disposal of a session whose isolation
directory entry is on the lookup path exactly once returns normally), and
afterwards the entry is no longer present in the lookup path; but a
second, repeated disposal of the same Session raises `ValueError`, since
removing the now-absent entry from the lookup path fails. -/
theorem claim_C1 (F : Type) (b b2 : Binding F) (c : Client) (env : Env)
    (h : env.sysPath.count c.base_module_dir = 1) :
    (Client.del b c env).1 = .ok () ∧
    c.base_module_dir ∉ (Client.del b c env).2.1.sysPath ∧
    (Client.del b2 c (Client.del b c env).2.1).1 =
      .error (.valueError "list.remove(x): x not in list") := by
  have hmem : c.base_module_dir ∈ env.sysPath :=
    List.count_pos_iff.mp (by omega)
  have hnot : c.base_module_dir ∉ env.sysPath.erase c.base_module_dir := by
    have h2 : (env.sysPath.erase c.base_module_dir).count c.base_module_dir = 0 := by
      rw [List.count_erase_self, h]
    exact List.count_eq_zero.mp h2
  refine ⟨?_, ?_, ?_⟩
  · simp [Client.del, hmem]
  · simpa [Client.del, hmem] using hnot
  · simp [Client.del, hmem, hnot]

/-- C1 witness: the amended statement at the concrete session of the
counterexample. -/
theorem claim_C1_witness :
    (Client.del bindingEx clientEx envEx).1 = .ok () ∧
    clientEx.base_module_dir ∉ (Client.del bindingEx clientEx envEx).2.1.sysPath ∧
    (Client.del bindingEx clientEx (Client.del bindingEx clientEx envEx).2.1).1 =
      .error (.valueError "list.remove(x): x not in list") :=
  claim_C1 Int bindingEx bindingEx clientEx envEx rfl

/-- C2 counterexample: an `AccountInfo` returned by `account_info()` is not
immutable — `AccountInfo` is a plain class, not a frozen dataclass, so a
field reassignment after construction succeeds (no exception) and changes
the field.  This refutes the claim that none of the fields can be
reassigned by any operation. -/
theorem claim_C2_counterexample :
    Client.accountInfo bindingEx = .ok aiEx ∧
    AccountInfo.setLogin aiEx 999999 = .ok { aiEx with login := 999999 } ∧
    ({ aiEx with login := 999999 } : AccountInfo Int).login ≠ aiEx.login :=
  ⟨rfl, rfl, by decide⟩

/-- C2 (amended): every `AccountInfo` value returned by `account_info()` is
a snapshot copied verbatim, field by field, from the binding's result
object at the moment of the call (the three enum-coded fields mapped
through their enumerations); but it is not immutable: the class is a plain
class, not a frozen dataclass, so its fields can be reassigned after
construction without raising. -/
theorem claim_C2 (F : Type) (b : Binding F) (ai : AccountInfo F)
    (h : Client.accountInfo b = .ok ai) :
    (ai.login = b.accountInfoResult.login ∧
     TradeMode.ofInt b.accountInfoResult.trade_mode = .ok ai.trade_mode ∧
     ai.leverage = b.accountInfoResult.leverage ∧
     ai.limit_orders = b.accountInfoResult.limit_orders ∧
     MarginSoMode.ofInt b.accountInfoResult.margin_so_mode = .ok ai.margin_so_mode ∧
     ai.trade_allowed = b.accountInfoResult.trade_allowed ∧
     ai.trade_expert = b.accountInfoResult.trade_expert ∧
     MarginMode.ofInt b.accountInfoResult.margin_mode = .ok ai.margin_mode ∧
     ai.currency_digits = b.accountInfoResult.currency_digits ∧
     ai.fifo_close = b.accountInfoResult.fifo_close ∧
     ai.balance = b.accountInfoResult.balance ∧
     ai.credit = b.accountInfoResult.credit ∧
     ai.profit = b.accountInfoResult.profit ∧
     ai.equity = b.accountInfoResult.equity ∧
     ai.margin = b.accountInfoResult.margin ∧
     ai.margin_free = b.accountInfoResult.margin_free ∧
     ai.margin_level = b.accountInfoResult.margin_level ∧
     ai.margin_so_call = b.accountInfoResult.margin_so_call ∧
     ai.margin_so_so = b.accountInfoResult.margin_so_so ∧
     ai.margin_initial = b.accountInfoResult.margin_initial ∧
     ai.margin_maintenance = b.accountInfoResult.margin_maintenance ∧
     ai.assets = b.accountInfoResult.assets ∧
     ai.liabilities = b.accountInfoResult.liabilities ∧
     ai.commission_blocked = b.accountInfoResult.commission_blocked ∧
     ai.name = b.accountInfoResult.name ∧
     ai.server = b.accountInfoResult.server ∧
     ai.currency = b.accountInfoResult.currency ∧
     ai.company = b.accountInfoResult.company) ∧
    (∀ v : Int, AccountInfo.setLogin ai v = .ok { ai with login := v }) := by
  unfold Client.accountInfo AccountInfo.ofOfficial at h
  cases htm : TradeMode.ofInt b.accountInfoResult.trade_mode with
  | error e => rw [htm] at h; exact absurd h (by simp)
  | ok tm =>
  cases hso : MarginSoMode.ofInt b.accountInfoResult.margin_so_mode with
  | error e => rw [htm, hso] at h; exact absurd h (by simp)
  | ok som =>
  cases hmm : MarginMode.ofInt b.accountInfoResult.margin_mode with
  | error e => rw [htm, hso, hmm] at h; exact absurd h (by simp)
  | ok mm =>
  rw [htm, hso, hmm] at h
  simp only [Except.ok.injEq] at h
  subst h
  refine ⟨⟨rfl, rfl, rfl, rfl, rfl, rfl, rfl, rfl, rfl, rfl, rfl, rfl, rfl, rfl,
    rfl, rfl, rfl, rfl, rfl, rfl, rfl, rfl, rfl, rfl, rfl, rfl, rfl, rfl⟩, ?_⟩
  intro v
  simp [AccountInfo.setLogin, accountInfoFrozen]

/-- C2 witness: the amended statement at the concrete binding object of
the counterexample. -/
theorem claim_C2_witness :
    ((aiEx.login = officialEx.login ∧
      TradeMode.ofInt officialEx.trade_mode = .ok aiEx.trade_mode ∧
      aiEx.leverage = officialEx.leverage ∧
      aiEx.limit_orders = officialEx.limit_orders ∧
      MarginSoMode.ofInt officialEx.margin_so_mode = .ok aiEx.margin_so_mode ∧
      aiEx.trade_allowed = officialEx.trade_allowed ∧
      aiEx.trade_expert = officialEx.trade_expert ∧
      MarginMode.ofInt officialEx.margin_mode = .ok aiEx.margin_mode ∧
      aiEx.currency_digits = officialEx.currency_digits ∧
      aiEx.fifo_close = officialEx.fifo_close ∧
      aiEx.balance = officialEx.balance ∧
      aiEx.credit = officialEx.credit ∧
      aiEx.profit = officialEx.profit ∧
      aiEx.equity = officialEx.equity ∧
      aiEx.margin = officialEx.margin ∧
      aiEx.margin_free = officialEx.margin_free ∧
      aiEx.margin_level = officialEx.margin_level ∧
      aiEx.margin_so_call = officialEx.margin_so_call ∧
      aiEx.margin_so_so = officialEx.margin_so_so ∧
      aiEx.margin_initial = officialEx.margin_initial ∧
      aiEx.margin_maintenance = officialEx.margin_maintenance ∧
      aiEx.assets = officialEx.assets ∧
      aiEx.liabilities = officialEx.liabilities ∧
      aiEx.commission_blocked = officialEx.commission_blocked ∧
      aiEx.name = officialEx.name ∧
      aiEx.server = officialEx.server ∧
      aiEx.currency = officialEx.currency ∧
      aiEx.company = officialEx.company) ∧
     (∀ v : Int, AccountInfo.setLogin aiEx v = .ok { aiEx with login := v })) :=
  claim_C2 Int bindingEx aiEx rfl

/-- C3: an `account_info()` call whose binding result has `trade_mode = 2`
(and in-range codes for the other two enum fields) yields an `AccountInfo`
whose trade-mode field is the REAL enumeration value; and for each of the
three enum-mapped fields, an integer code outside the documented value set
makes enumeration construction raise `ValueError`. -/
theorem claim_C3 (F : Type) (b : Binding F)
    (h2 : b.accountInfoResult.trade_mode = 2)
    (hso : b.accountInfoResult.margin_so_mode = 0 ∨
      b.accountInfoResult.margin_so_mode = 1)
    (hmm : b.accountInfoResult.margin_mode = 0 ∨
      b.accountInfoResult.margin_mode = 1 ∨ b.accountInfoResult.margin_mode = 2) :
    (∃ ai, Client.accountInfo b = .ok ai ∧ ai.trade_mode = TradeMode.REAL) ∧
    (∀ v : Int, ¬(v = 0 ∨ v = 1 ∨ v = 2) →
      (∃ m, TradeMode.ofInt v = .error (.valueError m)) ∧
      (∃ m, MarginMode.ofInt v = .error (.valueError m))) ∧
    (∀ v : Int, ¬(v = 0 ∨ v = 1) →
      ∃ m, MarginSoMode.ofInt v = .error (.valueError m)) := by
  refine ⟨?_, ?_, ?_⟩
  · rcases hso with hso | hso <;> rcases hmm with hmm | hmm | hmm <;>
    · unfold Client.accountInfo AccountInfo.ofOfficial
      rw [h2, hso, hmm]
      exact ⟨_, rfl, rfl⟩
  · intro v hv
    push_neg at hv
    obtain ⟨h0, h1, h2v⟩ := hv
    exact ⟨⟨toString v ++ " is not a valid TradeMode",
             by simp [TradeMode.ofInt, h0, h1, h2v]⟩,
           ⟨toString v ++ " is not a valid MarginMode",
             by simp [MarginMode.ofInt, h0, h1, h2v]⟩⟩
  · intro v hv
    push_neg at hv
    obtain ⟨h0, h1⟩ := hv
    exact ⟨toString v ++ " is not a valid MarginSoMode",
           by simp [MarginSoMode.ofInt, h0, h1]⟩

/-- C3 witness: the statement at the concrete binding object, which has
`trade_mode = 2`, `margin_so_mode = 0` and `margin_mode = 2`. -/
theorem claim_C3_witness :
    ((∃ ai, Client.accountInfo bindingEx = .ok ai ∧
        ai.trade_mode = TradeMode.REAL) ∧
     (∀ v : Int, ¬(v = 0 ∨ v = 1 ∨ v = 2) →
       (∃ m, TradeMode.ofInt v = .error (.valueError m)) ∧
       (∃ m, MarginMode.ofInt v = .error (.valueError m))) ∧
     (∀ v : Int, ¬(v = 0 ∨ v = 1) →
       ∃ m, MarginSoMode.ofInt v = .error (.valueError m))) :=
  claim_C3 Int bindingEx rfl (Or.inl rfl) (Or.inr (Or.inr rfl))

/-- A binding oracle whose `initialize` call reports failure. -/
def bindingFail : Binding Int :=
  { bindingEx with initializeResult := false }

/-- C5: if the binding's initialize operation reports failure, construction
raises `InitializeError` embedding the current last-error snapshot, no
client value is produced, and the wrapper makes no `login` or
`account_info` call on that construction attempt (the binding calls are
exactly `initialize` followed by the `last_error` fetch for the error). -/
theorem claim_C5 (F : Type) (env : Env) (b : Binding F) (tp : String) (n : Int)
    (pw s : String) (t : Int) (pid mid orig : String)
    (hterm : env.terminalExists = true) (hw : env.writable = true)
    (hspec : env.officialSpec = some (some orig))
    (hinit : b.initializeResult = false) :
    (Client.init env b tp n pw s t pid mid).1 =
      .error (.initializeErrorLast
        { error_code := b.lastErrorResult.1
          error_description := b.lastErrorResult.2 }
        "ensure you can login manually with portable mode: True") ∧
    (Client.init env b tp n pw s t pid mid).2.2 = [.initCall, .lastErrorCall] ∧
    BCall.loginCall ∉ (Client.init env b tp n pw s t pid mid).2.2 ∧
    BCall.accountInfoCall ∉ (Client.init env b tp n pw s t pid mid).2.2 := by
  cases hex : existingModules env with
  | nil =>
      rw [init_fresh_fail F env b tp n pw s t pid mid hterm hw hinit hex orig hspec]
      exact ⟨rfl, rfl, by simp, by simp⟩
  | cons e rest =>
      rw [init_reuse_fail F env b tp n pw s t pid mid hterm hw hinit e rest hex]
      exact ⟨rfl, rfl, by simp, by simp⟩

/-- C5 witness: a concrete failing construction against a fresh install. -/
theorem claim_C5_witness :
    (Client.init envFresh bindingFail "C:/mt5/terminal64.exe" 123456 "pw"
        "Demo-Server" 60000 "pid1" "mid1").1 =
      .error (.initializeErrorLast
        { error_code := bindingFail.lastErrorResult.1
          error_description := bindingFail.lastErrorResult.2 }
        "ensure you can login manually with portable mode: True") ∧
    (Client.init envFresh bindingFail "C:/mt5/terminal64.exe" 123456 "pw"
        "Demo-Server" 60000 "pid1" "mid1").2.2 = [.initCall, .lastErrorCall] ∧
    BCall.loginCall ∉ (Client.init envFresh bindingFail "C:/mt5/terminal64.exe"
        123456 "pw" "Demo-Server" 60000 "pid1" "mid1").2.2 ∧
    BCall.accountInfoCall ∉ (Client.init envFresh bindingFail "C:/mt5/terminal64.exe"
        123456 "pw" "Demo-Server" 60000 "pid1" "mid1").2.2 :=
  claim_C5 Int envFresh bindingFail "C:/mt5/terminal64.exe" 123456 "pw"
    "Demo-Server" 60000 "pid1" "mid1" "site-packages/MetaTrader5/__init__.py"
    rfl rfl rfl rfl

/-- C10: construction is not atomic on initialize failure — when the
binding's initialize operation returns false, the raised error is an
`InitializeError` carrying the last-error snapshot, and yet the isolation
directory has already been appended to the process-wide lookup path and
the duplicated module has already been imported into the module registry;
these side effects persist in the environment the error leaves behind. -/
theorem claim_C10 (F : Type) (env : Env) (b : Binding F) (tp : String) (n : Int)
    (pw s : String) (t : Int) (pid mid orig : String)
    (hterm : env.terminalExists = true) (hw : env.writable = true)
    (hspec : env.officialSpec = some (some orig))
    (hinit : b.initializeResult = false) :
    (∃ le hint, (Client.init env b tp n pw s t pid mid).1 =
      .error (.initializeErrorLast le hint)) ∧
    (parentOf tp ++ "/" ++ "py2mql5") ∈
      (Client.init env b tp n pw s t pid mid).2.1.sysPath ∧
    (∃ m, m ∈ (Client.init env b tp n pw s t pid mid).2.1.sysModules ∧
      pyStartswith m (OFFICIAL_MODULE_NAME ++ "_") = true) := by
  cases hex : existingModules env with
  | nil =>
      rw [init_fresh_fail F env b tp n pw s t pid mid hterm hw hinit hex orig hspec]
      refine ⟨⟨Client.lastError b, _, rfl⟩, by simp, ?_⟩
      exact ⟨OFFICIAL_MODULE_NAME ++ "_" ++ mid, importModule_mem _ _,
        pyStartswith_append (OFFICIAL_MODULE_NAME ++ "_") mid⟩
  | cons e rest =>
      have he : e ∈ existingModules env := by
        rw [hex]; exact List.mem_cons_self e rest
      have hpe : pyStartswith e.name (OFFICIAL_MODULE_NAME ++ "_") = true := by
        simp only [existingModules] at he
        have hp := List.of_mem_filter he
        exact (Bool.and_eq_true _ _ |>.mp hp).2
      rw [init_reuse_fail F env b tp n pw s t pid mid hterm hw hinit e rest hex]
      exact ⟨⟨Client.lastError b, _, rfl⟩, by simp,
        ⟨e.name, importModule_mem _ _, hpe⟩⟩

/-- C10 witness: the concrete failing construction of the C5 witness,
whose leftover environment keeps the lookup-path entry and the imported
module. -/
theorem claim_C10_witness :
    (∃ le hint, (Client.init envFresh bindingFail "C:/mt5/terminal64.exe" 123456
        "pw" "Demo-Server" 60000 "pid1" "mid1").1 =
      .error (.initializeErrorLast le hint)) ∧
    (parentOf "C:/mt5/terminal64.exe" ++ "/" ++ "py2mql5") ∈
      (Client.init envFresh bindingFail "C:/mt5/terminal64.exe" 123456 "pw"
        "Demo-Server" 60000 "pid1" "mid1").2.1.sysPath ∧
    (∃ m, m ∈ (Client.init envFresh bindingFail "C:/mt5/terminal64.exe" 123456
        "pw" "Demo-Server" 60000 "pid1" "mid1").2.1.sysModules ∧
      pyStartswith m (OFFICIAL_MODULE_NAME ++ "_") = true) :=
  claim_C10 Int envFresh bindingFail "C:/mt5/terminal64.exe" 123456 "pw"
    "Demo-Server" 60000 "pid1" "mid1" "site-packages/MetaTrader5/__init__.py"
    rfl rfl rfl rfl

/-- C8: during construction, write permission at the terminal's parent
directory is probed with a uniquely named file; if the directory is not
writable, construction fails with `InitializeError` whose message includes
the remediation guidance, and nothing is changed; if it is writable, the
probe file does not persist (the parent directory's files are exactly as
before). -/
theorem claim_C8 (F : Type) (env : Env) (b : Binding F) (tp : String) (n : Int)
    (pw s : String) (t : Int) (pid mid : String)
    (hterm : env.terminalExists = true)
    (hprobe : ("py2mql5_test_" ++ pid) ∉ env.parentFiles) :
    (env.writable = false →
      (Client.init env b tp n pw s t pid mid).1 =
        .error (.initializeErrorMsg (writePermissionMessage tp)) ∧
      (Client.init env b tp n pw s t pid mid).2.1 = env ∧
      ∃ pre post, writePermissionMessage tp =
        pre ++ "Please copy MetaTrader to a directory with write permissions" ++ post) ∧
    (env.writable = true →
      (Client.init env b tp n pw s t pid mid).2.1.parentFiles = env.parentFiles ∧
      ("py2mql5_test_" ++ pid) ∉
        (Client.init env b tp n pw s t pid mid).2.1.parentFiles) := by
  constructor
  · intro hw
    have hrun : Client.init env b tp n pw s t pid mid =
        (.error (.initializeErrorMsg (writePermissionMessage tp)), env, []) := by
      unfold Client.init Client.copyAndImportOfficialModule
      rw [hterm, hw]
      simp
    refine ⟨by rw [hrun], by rw [hrun], ?_⟩
    refine ⟨"No write permission in " ++ tp ++ ". ",
      " (avoid system directories like Program Files, C:, root, etc)", ?_⟩
    have hbc : "Please copy MetaTrader to a directory with write permissions " ++
        "(avoid system directories like Program Files, C:, root, etc)" =
        "Please copy MetaTrader to a directory with write permissions" ++
        " (avoid system directories like Program Files, C:, root, etc)" := rfl
    unfold writePermissionMessage
    rw [String.append_assoc, hbc, ← String.append_assoc]
  · intro hw
    have hpf : (Client.init env b tp n pw s t pid mid).2.1.parentFiles =
        env.parentFiles := by
      cases hex : existingModules env with
      | cons e rest =>
          cases hinit : b.initializeResult with
          | false =>
              rw [init_reuse_fail F env b tp n pw s t pid mid hterm hw hinit e rest hex]
              exact erase_append_singleton hprobe
          | true =>
              rw [init_reuse_ok F env b tp n pw s t pid mid hterm hw hinit e rest hex]
              exact erase_append_singleton hprobe
      | nil =>
          cases hspec : env.officialSpec with
          | none =>
              unfold Client.init Client.copyAndImportOfficialModule
              rw [hterm, hw, hex, hspec]
              simp [erase_append_singleton hprobe]
          | some o =>
              cases o with
              | none =>
                  unfold Client.init Client.copyAndImportOfficialModule
                  rw [hterm, hw, hex, hspec]
                  simp [erase_append_singleton hprobe]
              | some orig =>
                  cases hinit : b.initializeResult with
                  | false =>
                      rw [init_fresh_fail F env b tp n pw s t pid mid hterm hw hinit
                        hex orig hspec]
                      exact erase_append_singleton hprobe
                  | true =>
                      rw [init_fresh_ok F env b tp n pw s t pid mid hterm hw hinit
                        hex orig hspec]
                      exact erase_append_singleton hprobe
    exact ⟨hpf, by rw [hpf]; exact hprobe⟩

/-- C8 witness: a concrete construction against a writable fresh install
with a concrete probe name. -/
theorem claim_C8_witness :
    (envFresh.writable = false →
      (Client.init (F := Int) envFresh bindingEx "C:/mt5/terminal64.exe" 123456
        "pw" "Demo-Server" 60000 "deadbeef" "mid1").1 =
        .error (.initializeErrorMsg (writePermissionMessage "C:/mt5/terminal64.exe")) ∧
      (Client.init (F := Int) envFresh bindingEx "C:/mt5/terminal64.exe" 123456
        "pw" "Demo-Server" 60000 "deadbeef" "mid1").2.1 = envFresh ∧
      ∃ pre post, writePermissionMessage "C:/mt5/terminal64.exe" =
        pre ++ "Please copy MetaTrader to a directory with write permissions" ++ post) ∧
    (envFresh.writable = true →
      (Client.init (F := Int) envFresh bindingEx "C:/mt5/terminal64.exe" 123456
        "pw" "Demo-Server" 60000 "deadbeef" "mid1").2.1.parentFiles =
        envFresh.parentFiles ∧
      ("py2mql5_test_" ++ "deadbeef") ∉
        (Client.init (F := Int) envFresh bindingEx "C:/mt5/terminal64.exe" 123456
          "pw" "Demo-Server" 60000 "deadbeef" "mid1").2.1.parentFiles) :=
  claim_C8 Int envFresh bindingEx "C:/mt5/terminal64.exe" 123456 "pw"
    "Demo-Server" 60000 "deadbeef" "mid1" rfl (by simp [envFresh])

/-- C4: constructing a second Session against the same terminal install
succeeds, finds the duplicate the first construction used (or created) by
the name-prefix scan, reuses its directory and module name, and creates no
new directory in the isolation directory. -/
theorem claim_C4 (F : Type) (env0 : Env) (b b2 : Binding F) (tp : String)
    (n1 n2 : Int) (pw1 pw2 s1 s2 : String) (t1 t2 : Int)
    (pid1 mid1 pid2 mid2 orig : String)
    (hterm : env0.terminalExists = true) (hw : env0.writable = true)
    (hspec : env0.officialSpec = some (some orig))
    (h1 : b.initializeResult = true) (h2 : b2.initializeResult = true) :
    ∃ c1 c2,
      (Client.init env0 b tp n1 pw1 s1 t1 pid1 mid1).1 = .ok c1 ∧
      (Client.init (Client.init env0 b tp n1 pw1 s1 t1 pid1 mid1).2.1 b2 tp n2
        pw2 s2 t2 pid2 mid2).1 = .ok c2 ∧
      c2.module_name = c1.module_name ∧
      c2.module_dir = c1.module_dir ∧
      (Client.init (Client.init env0 b tp n1 pw1 s1 t1 pid1 mid1).2.1 b2 tp n2
        pw2 s2 t2 pid2 mid2).2.1.baseEntries =
        (Client.init env0 b tp n1 pw1 s1 t1 pid1 mid1).2.1.baseEntries := by
  cases hex : existingModules env0 with
  | cons e rest =>
      have r1 := init_reuse_ok F env0 b tp n1 pw1 s1 t1 pid1 mid1 hterm hw h1 e rest hex
      have hex1 : existingModules
          { env0 with
            parentFiles := (env0.parentFiles ++ ["py2mql5_test_" ++ pid1]).erase
              ("py2mql5_test_" ++ pid1)
            baseDirExists := true
            baseEntries := scanEntries env0
            sysPath := env0.sysPath ++ [parentOf tp ++ "/" ++ "py2mql5"]
            sysModules := importModule env0.sysModules e.name } = e :: rest := by
        simpa [existingModules, scanEntries] using hex
      have r2 := init_reuse_ok F
        { env0 with
          parentFiles := (env0.parentFiles ++ ["py2mql5_test_" ++ pid1]).erase
            ("py2mql5_test_" ++ pid1)
          baseDirExists := true
          baseEntries := scanEntries env0
          sysPath := env0.sysPath ++ [parentOf tp ++ "/" ++ "py2mql5"]
          sysModules := importModule env0.sysModules e.name }
        b2 tp n2 pw2 s2 t2 pid2 mid2 hterm hw h2 e rest hex1
      rw [r1]
      dsimp only
      rw [r2]
      exact ⟨_, _, rfl, rfl, rfl, rfl, rfl⟩
  | nil =>
      have r1 := init_fresh_ok F env0 b tp n1 pw1 s1 t1 pid1 mid1 hterm hw h1 hex
        orig hspec
      have hex0 : List.filter
          (fun d => d.isDir && pyStartswith d.name (OFFICIAL_MODULE_NAME ++ "_"))
          (scanEntries env0) = [] := by
        simpa [existingModules] using hex
      have hex1 : existingModules
          { env0 with
            parentFiles := (env0.parentFiles ++ ["py2mql5_test_" ++ pid1]).erase
              ("py2mql5_test_" ++ pid1)
            baseDirExists := true
            baseEntries := scanEntries env0 ++
              [{ name := OFFICIAL_MODULE_NAME ++ "_" ++ mid1, isDir := true }]
            sysPath := env0.sysPath ++ [parentOf tp ++ "/" ++ "py2mql5"]
            sysModules := importModule env0.sysModules
              (OFFICIAL_MODULE_NAME ++ "_" ++ mid1) } =
          [{ name := OFFICIAL_MODULE_NAME ++ "_" ++ mid1, isDir := true }] := by
        unfold existingModules
        rw [scanEntries_eq _ rfl]
        dsimp only
        rw [List.filter_append, hex0]
        simp [pyStartswith_append]
      have r2 := init_reuse_ok F
        { env0 with
          parentFiles := (env0.parentFiles ++ ["py2mql5_test_" ++ pid1]).erase
            ("py2mql5_test_" ++ pid1)
          baseDirExists := true
          baseEntries := scanEntries env0 ++
            [{ name := OFFICIAL_MODULE_NAME ++ "_" ++ mid1, isDir := true }]
          sysPath := env0.sysPath ++ [parentOf tp ++ "/" ++ "py2mql5"]
          sysModules := importModule env0.sysModules
            (OFFICIAL_MODULE_NAME ++ "_" ++ mid1) }
        b2 tp n2 pw2 s2 t2 pid2 mid2 hterm hw h2
        { name := OFFICIAL_MODULE_NAME ++ "_" ++ mid1, isDir := true } [] hex1
      rw [r1]
      dsimp only
      rw [r2]
      exact ⟨_, _, rfl, rfl, rfl, rfl, rfl⟩

/-- C4 witness: two concrete constructions against the same fresh terminal
install. -/
theorem claim_C4_witness :
    ∃ c1 c2,
      (Client.init (F := Int) envFresh bindingEx "C:/mt5/terminal64.exe" 123456
        "pw" "Demo-Server" 60000 "p1" "m1").1 = .ok c1 ∧
      (Client.init (Client.init (F := Int) envFresh bindingEx
        "C:/mt5/terminal64.exe" 123456 "pw" "Demo-Server" 60000 "p1" "m1").2.1
        bindingEx "C:/mt5/terminal64.exe" 123456 "pw" "Demo-Server" 60000
        "p2" "m2").1 = .ok c2 ∧
      c2.module_name = c1.module_name ∧
      c2.module_dir = c1.module_dir ∧
      (Client.init (Client.init (F := Int) envFresh bindingEx
        "C:/mt5/terminal64.exe" 123456 "pw" "Demo-Server" 60000 "p1" "m1").2.1
        bindingEx "C:/mt5/terminal64.exe" 123456 "pw" "Demo-Server" 60000
        "p2" "m2").2.1.baseEntries =
        (Client.init (F := Int) envFresh bindingEx "C:/mt5/terminal64.exe" 123456
          "pw" "Demo-Server" 60000 "p1" "m1").2.1.baseEntries :=
  claim_C4 Int envFresh bindingEx bindingEx "C:/mt5/terminal64.exe" 123456 123456
    "pw" "pw" "Demo-Server" "Demo-Server" 60000 60000 "p1" "m1" "p2" "m2"
    "site-packages/MetaTrader5/__init__.py" rfl rfl rfl rfl rfl

end Py2MQL5
